import Mathlib

/-!
Verification of the RiskOps risk-scoring engine (`risk_engine.py`).

The engine is a pure function from a (detection, context) pair to a risk
result.  Python floats are modelled as exact rationals (`ℚ`); Python's
`round(x, n)` (round-half-to-even) is modelled by `roundTo n`; Python's
substring test `needle in haystack` by `strContainsSub`; `str.lower()` by
`strLower` (character-wise lowering, faithful on the ASCII inputs the
engine compares against).
-/

/-! ### String helpers -/

/-- Character-wise lowercasing, modelling Python's `str.lower()` on ASCII. -/
def strLower (s : String) : String := String.mk (s.data.map Char.toLower)

/-- `containsSub hay needle` models Python's `needle in hay` on char lists. -/
def containsSub : List Char → List Char → Bool
  | [], needle => needle.isEmpty
  | c :: t, needle => needle.isPrefixOf (c :: t) || containsSub t needle

/-- Python's substring test `needle in hay` for strings. -/
def strContainsSub (hay needle : String) : Bool := containsSub hay.data needle.data

/-- Python's `s or d` for a required string field: the empty string is falsy. -/
def str_default (s : String) (d : String) : String := if s = "" then d else s

/-- Python's `o or d` for an optional string field: `None` and `""` are falsy. -/
def opt_default (o : Option String) (d : String) : String :=
  match o with
  | none => d
  | some s => if s = "" then d else s

/-! ### Rounding: Python's `round(x, n)` (round half to even) over `ℚ` -/

/-- Round a rational to the nearest integer, ties to the even integer,
modelling Python's builtin `round`. -/
def roundHalfEven (x : ℚ) : ℤ :=
  if Int.fract x < 1/2 then ⌊x⌋
  else if 1/2 < Int.fract x then ⌊x⌋ + 1
  else if 2 ∣ ⌊x⌋ then ⌊x⌋ else ⌊x⌋ + 1

/-- Python's `round(x, n)` for `n` decimal places. -/
def roundTo (n : ℕ) (x : ℚ) : ℚ := (roundHalfEven (x * 10 ^ n) : ℚ) / 10 ^ n

/-! ### Data model (`schema.py`) -/

/-- `schema.Detection`: one candidate incident observation. -/
structure Detection where
  id : String
  label : String
  substance_pred : String
  confidence : ℚ
  area_ratio : Option ℚ
deriving Repr, DecidableEq

/-- `schema.Context`: site/zone business and physical attributes. -/
structure Context where
  site_id : String
  zone_id : Option String
  zone_type : Option String
  proximity_to_machines : Option String
  floor_type : Option String
  production_value_per_hour : Option ℚ
deriving Repr, DecidableEq

/-- `schema.RiskFactor`: one named contribution to the aggregate score. -/
structure RiskFactor where
  name : String
  value : ℚ
  weight : ℚ
  contribution : ℚ
deriving Repr, DecidableEq

/-- `schema.RiskResult`: the engine's immutable output record.  The optional
mitigated fields are always set by `build_risk_result`, so they are modelled
as plain fields. -/
structure RiskResult where
  image_id : String
  global_severity_score : ℚ
  global_severity_level : String
  estimated_cost : ℚ
  currency : String
  factors : List RiskFactor
  explanation : String
  recommendations : List String
  mitigated_severity_score : ℚ
  mitigated_severity_level : String
  mitigated_cost : ℚ
  risk_reduction_pct : ℚ
deriving Repr, DecidableEq

/-! ### Scoring helpers (`risk_engine.py`) -/

/-- `_area_factor`: step multiplier for the affected-area ratio. -/
def area_factor (r : ℚ) : ℚ :=
  if r ≤ 0.15 then 0.6
  else if r ≤ 0.35 then 1
  else 1.3

/-- `_physical_score`: substance base times area factor times floor factor,
clamped to [0, 100].  Note the source tests `"absorbent" in floor_type`, a
substring test. -/
def physical_score (d : Detection) (c : Context) : ℚ :=
  let substance := strLower (str_default d.substance_pred "unknown")
  let ar := d.area_ratio.getD 0
  let floor_type := strLower (c.floor_type.getD "")
  let base : ℚ :=
    if substance = "water" then 20
    else if substance = "oil" then 40
    else if substance = "chemical" then 70
    else 30
  let af := area_factor ar
  let floor_factor : ℚ := if strContainsSub floor_type "absorbent" then 0.8 else 1.1
  let score := base * af * floor_factor
  max 0 (min score 100)

/-- `_electrical_score`: zone/substance/proximity interaction base times
area factor, clamped to [0, 100]. -/
def electrical_score (d : Detection) (c : Context) : ℚ :=
  let substance := strLower (str_default d.substance_pred "unknown")
  let zone_type := strLower (c.zone_type.getD "")
  let proximity := strLower (c.proximity_to_machines.getD "")
  let ar := d.area_ratio.getD 0
  let base : ℚ :=
    if zone_type = "electrical_room" then
      if substance = "chemical" then 80
      else if substance = "water" then 60
      else if substance = "oil" then 40
      else 0
    else if zone_type = "production" ∨ zone_type = "storage" then
      if proximity = "near_machine" ∨ proximity = "critical_machine" then
        if substance = "chemical" then 50
        else if substance = "oil" then 40
        else if substance = "water" then 25
        else 0
      else 0
    else 0
  let score := base * area_factor ar
  max 0 (min score 100)

/-- `_human_safety_score`: substance base times area factor times proximity
factor, clamped to [0, 100]. -/
def human_safety_score (d : Detection) (c : Context) : ℚ :=
  let substance := strLower (str_default d.substance_pred "unknown")
  let proximity := strLower (c.proximity_to_machines.getD "")
  let ar := d.area_ratio.getD 0
  let base : ℚ :=
    if substance = "water" then 20
    else if substance = "oil" then 40
    else if substance = "chemical" then 70
    else 30
  let pf : ℚ :=
    if proximity = "far" then 0.7
    else if proximity = "near_machine" then 1
    else if proximity = "critical_machine" then 1.2
    else 1
  let score := base * area_factor ar * pf
  max 0 (min score 100)

/-- `_business_score`: production value scaled into [0, 100], times area
factor and zone multiplier, clamped to [0, 100]. -/
def business_score (d : Detection) (c : Context) : ℚ :=
  let zone_type := strLower (c.zone_type.getD "")
  let ar := d.area_ratio.getD 0
  let prod_value := c.production_value_per_hour.getD 0
  let zone_mult : ℚ :=
    if zone_type = "production" then 1
    else if zone_type = "electrical_room" then 0.8
    else if zone_type = "storage" then 0.7
    else 0.5
  let base := min (prod_value / 500) 100
  let score := base * area_factor ar * zone_mult
  max 0 (min score 100)

/-- `_model_confidence_score`: confidence scaled to [0, 100] and clamped. -/
def model_confidence_score (d : Detection) : ℚ :=
  max 0 (min (d.confidence * 100) 100)

/-- `_severity_level`: total classification of a score into four tiers. -/
def severity_level (score : ℚ) : String :=
  if score < 25 then "LOW"
  else if score < 50 then "MEDIUM"
  else if score < 75 then "HIGH"
  else "CRITICAL"

/-- `_estimate_cost`: rough monetary estimate from production value, area,
substance and global score. -/
def estimate_cost (global_score : ℚ) (d : Detection) (c : Context) : ℚ :=
  let prod_value := c.production_value_per_hour.getD 0
  let ar := d.area_ratio.getD 0
  let substance := strLower (str_default d.substance_pred "unknown")
  let hours_lost := min (4 * ar) 4
  let dmg_factor : ℚ :=
    if substance = "water" then 0.6
    else if substance = "oil" then 1
    else if substance = "chemical" then 2
    else 0.8
  let base_loss := prod_value * hours_lost * dmg_factor
  let severity_factor := 0.5 + global_score / 100
  max 0 (base_loss * severity_factor)

/-- `_build_recommendations`: ordered recommendation list. -/
def build_recommendations (level : String) (d : Detection) (c : Context) : List String :=
  let substance := strLower (str_default d.substance_pred "unknown")
  let zone_type := strLower (c.zone_type.getD "")
  let recs := ["Isoler la zone et baliser l'accès (cones, rubalise)."]
  let recs := recs ++
    (if substance = "oil" then ["Nettoyage urgent avec kit absorbant adapté à l'huile."]
     else if substance = "water" then ["Sécher / nettoyer la zone pour éviter les chutes."]
     else if substance = "chemical" then
       ["Déclencher la procédure de déversement chimique (EPI, SDS, ventilation)."]
     else [])
  let recs := recs ++
    (if zone_type = "electrical_room" then
       ["Couper l'alimentation électrique de la zone si possible et sécurisé."]
     else [])
  let recs := recs ++
    (if level = "HIGH" ∨ level = "CRITICAL" then
       ["Informer immédiatement le responsable HSE / sécurité du site.",
        "Documenter l'incident dans le registre HSE et analyser les causes racines."]
     else ["Documenter l'incident dans le registre HSE."])
  recs

/-- One-decimal formatting of a non-negative rational, modelling Python's
`f"{score:.1f}"` in the explanation template. -/
def fmt1 (x : ℚ) : String :=
  let n := roundHalfEven (x * 10)
  toString (n / 10) ++ "." ++ toString (n % 10)

/-- `_build_explanation`: deterministic template string. -/
def build_explanation (level : String) (score : ℚ) (d : Detection) (c : Context) : String :=
  let substance := str_default d.substance_pred "unknown"
  let zone := opt_default c.zone_type "unknown"
  let proximity := opt_default c.proximity_to_machines "unknown"
  "Incident classé " ++ level ++ " (score " ++ fmt1 score ++ "/100). " ++
    "Substance détectée : " ++ substance ++ ". " ++
    "Zone : " ++ zone ++ ", proximité aux équipements : " ++ proximity ++ ". " ++
    "Les scores détaillés (physique, électrique, humain, business, confiance modèle) " ++
    "contribuent chacun au score global en fonction de leur poids."

/-- `_apply_mitigation`: fixed reduction coefficients on each sub-score. -/
def apply_mitigation (physical electrical human business model_conf : ℚ) :
    ℚ × ℚ × ℚ × ℚ × ℚ :=
  (physical * 0.5, electrical * 0.5, human * 0.6, business * 0.7, model_conf)

/-! ### `build_risk_result` (`risk_engine.py`)

The source computes the result through local variables; those locals are
translated as named definitions (`factors_list`, `global_score_raw`, ...)
so that the pre-rounding quantities can be named in theorems.  The final
record applies the same `round(..., 2)` / `round(..., 1)` calls as the
source. -/

/-- Weight of the physical factor (`w_physical`). -/
def w_physical : ℚ := 0.35

/-- Weight of the electrical factor (`w_electrical`). -/
def w_electrical : ℚ := 0.20

/-- Weight of the human-safety factor (`w_human`). -/
def w_human : ℚ := 0.20

/-- Weight of the business factor (`w_business`). -/
def w_business : ℚ := 0.15

/-- Weight of the model-confidence factor (`w_model_conf`). -/
def w_model_conf : ℚ := 0.10

/-- The five reported factors, in the source's fixed insertion order:
`value` is the sub-score rounded to 2 places, `contribution` the raw
sub-score times the weight, rounded to 3 places. -/
def factors_list (d : Detection) (c : Context) : List RiskFactor :=
  [{ name := "physical", value := roundTo 2 (physical_score d c),
     weight := w_physical, contribution := roundTo 3 (physical_score d c * w_physical) },
   { name := "electrical", value := roundTo 2 (electrical_score d c),
     weight := w_electrical, contribution := roundTo 3 (electrical_score d c * w_electrical) },
   { name := "human_safety", value := roundTo 2 (human_safety_score d c),
     weight := w_human, contribution := roundTo 3 (human_safety_score d c * w_human) },
   { name := "business", value := roundTo 2 (business_score d c),
     weight := w_business, contribution := roundTo 3 (business_score d c * w_business) },
   { name := "model_confidence", value := roundTo 2 (model_confidence_score d),
     weight := w_model_conf, contribution := roundTo 3 (model_confidence_score d * w_model_conf) }]

/-- `global_score` in the source: the sum of the reported contributions. -/
def global_score_raw (d : Detection) (c : Context) : ℚ :=
  List.sum ((factors_list d c).map RiskFactor.contribution)

/-- `mitigated_score` in the source: weighted sum of the mitigated
sub-scores (not rounded before summation). -/
def mitigated_score_raw (d : Detection) (c : Context) : ℚ :=
  match apply_mitigation (physical_score d c) (electrical_score d c)
      (human_safety_score d c) (business_score d c) (model_confidence_score d) with
  | (pa, ea, ha, ba, ma) =>
    List.sum [pa * w_physical, ea * w_electrical, ha * w_human, ba * w_business,
      ma * w_model_conf]

/-- `estimated_cost` in the source, before the final rounding. -/
def estimated_cost_raw (d : Detection) (c : Context) : ℚ :=
  estimate_cost (global_score_raw d c) d c

/-- `mitigated_cost` in the source, before the final rounding. -/
def mitigated_cost_raw (d : Detection) (c : Context) : ℚ :=
  if 0 < global_score_raw d c then
    estimated_cost_raw d c * (mitigated_score_raw d c / global_score_raw d c)
  else 0

/-- `risk_reduction_pct` in the source, before the final rounding. -/
def risk_reduction_pct_raw (d : Detection) (c : Context) : ℚ :=
  if 0 < global_score_raw d c then
    (global_score_raw d c - mitigated_score_raw d c) / global_score_raw d c * 100
  else 0

/-- `build_risk_result`: the engine's entry point.  Only the first detection
is used; an empty list yields the fixed degenerate record. -/
def build_risk_result (image_id : String) (detections : List Detection)
    (c : Context) : RiskResult :=
  match detections with
  | [] =>
    { image_id := image_id
      global_severity_score := 0
      global_severity_level := "LOW"
      estimated_cost := 0
      currency := "EUR"
      factors := []
      explanation := "Aucune détection fournie. Score de risque nul."
      recommendations := []
      mitigated_severity_score := 0
      mitigated_severity_level := "LOW"
      mitigated_cost := 0
      risk_reduction_pct := 0 }
  | det :: _ =>
    { image_id := image_id
      global_severity_score := roundTo 2 (global_score_raw det c)
      global_severity_level := severity_level (global_score_raw det c)
      estimated_cost := roundTo 2 (estimated_cost_raw det c)
      currency := "EUR"
      factors := factors_list det c
      explanation := build_explanation (severity_level (global_score_raw det c))
        (global_score_raw det c) det c
      recommendations := build_recommendations (severity_level (global_score_raw det c)) det c
      mitigated_severity_score := roundTo 2 (mitigated_score_raw det c)
      mitigated_severity_level := severity_level (mitigated_score_raw det c)
      mitigated_cost := roundTo 2 (mitigated_cost_raw det c)
      risk_reduction_pct := roundTo 1 (risk_reduction_pct_raw det c) }

/-! ### Spec-side definitions (for refinement claims)

These two definitions follow the specification's wording, to be compared
with the definitions translated from the source. -/

/-- The electrical base table as the specification words it: one flat
case analysis on zone, proximity and substance. -/
def electrical_base_spec (substance zone proximity : String) : ℚ :=
  if zone = "electrical_room" then
    if substance = "chemical" then 80
    else if substance = "water" then 60
    else if substance = "oil" then 40
    else 0
  else if (zone = "production" ∨ zone = "storage") ∧
      (proximity = "near_machine" ∨ proximity = "critical_machine") then
    if substance = "chemical" then 50
    else if substance = "oil" then 40
    else if substance = "water" then 25
    else 0
  else 0

/-- The recommendation list as the specification words it (amended: the
HIGH/CRITICAL branch appends the escalation instruction and then a
document-and-analyse instruction). -/
def recommendations_spec (level substance zone : String) : List String :=
  ["Isoler la zone et baliser l'accès (cones, rubalise)."]
  ++ (if substance = "oil" then ["Nettoyage urgent avec kit absorbant adapté à l'huile."]
      else if substance = "water" then ["Sécher / nettoyer la zone pour éviter les chutes."]
      else if substance = "chemical" then
        ["Déclencher la procédure de déversement chimique (EPI, SDS, ventilation)."]
      else [])
  ++ (if zone = "electrical_room" then
        ["Couper l'alimentation électrique de la zone si possible et sécurisé."]
      else [])
  ++ (if level = "HIGH" ∨ level = "CRITICAL" then
        ["Informer immédiatement le responsable HSE / sécurité du site.",
         "Documenter l'incident dans le registre HSE et analyser les causes racines."]
      else ["Documenter l'incident dans le registre HSE."])

/-! ### Concrete inputs used by the counterexamples and worked examples -/

/-- The demo scenario of the spec and of `adapter_example.py`: oil at 93%
confidence over 30% of the image, production zone, near machines,
non-absorbent floor, 8000 EUR/h. -/
def exDet : Detection :=
  { id := "det_1", label := "spill", substance_pred := "oil", confidence := 0.93,
    area_ratio := some 0.3 }

/-- Context of the demo scenario. -/
def exCtx : Context :=
  { site_id := "SITE_001", zone_id := some "Z1", zone_type := some "production",
    proximity_to_machines := some "near_machine", floor_type := some "non_absorbent",
    production_value_per_hour := some 8000 }

/-- A small water detection whose model-confidence contribution has a third
decimal (confidence 0.0001). -/
def cexC1det : Detection :=
  { id := "d", label := "spill", substance_pred := "water", confidence := 0.0001,
    area_ratio := some 0.1 }

/-- Context for `cexC1det`: no zone, far from machines, absorbent floor. -/
def cexC1ctx : Context :=
  { site_id := "S", zone_id := none, zone_type := none,
    proximity_to_machines := some "far", floor_type := some "absorbent",
    production_value_per_hour := none }

/-- A water detection in a production zone with production value 1618 EUR/h,
whose business sub-score 3.236 rounds differently before and after the
2-decimal value rounding. -/
def cexC6det : Detection :=
  { id := "d", label := "spill", substance_pred := "water", confidence := 0.5,
    area_ratio := some 0.2 }

/-- Context for `cexC6det`. -/
def cexC6ctx : Context :=
  { site_id := "S", zone_id := none, zone_type := some "production",
    proximity_to_machines := some "far", floor_type := some "absorbent",
    production_value_per_hour := some 1618 }

/-- A chemical detection in an electrical room, at critical machines, over
half the image: a CRITICAL-level scenario. -/
def cexC9det : Detection :=
  { id := "d", label := "spill", substance_pred := "chemical", confidence := 0.9,
    area_ratio := some 0.5 }

/-- Context for `cexC9det`. -/
def cexC9ctx : Context :=
  { site_id := "S", zone_id := none, zone_type := some "electrical_room",
    proximity_to_machines := some "critical_machine", floor_type := none,
    production_value_per_hour := none }
theorem floor_le_rhe (x : ℚ) : ⌊x⌋ ≤ roundHalfEven x := by
  unfold roundHalfEven; split_ifs <;> omega

theorem rhe_le_floor_add_one (x : ℚ) : roundHalfEven x ≤ ⌊x⌋ + 1 := by
  unfold roundHalfEven; split_ifs <;> omega

theorem rhe_cast_le (x : ℚ) : (roundHalfEven x : ℚ) ≤ x + 1/2 := by
  have h1 : (⌊x⌋ : ℚ) ≤ x := Int.floor_le x
  have hf := Int.floor_add_fract x
  unfold roundHalfEven
  split_ifs <;> push_cast <;> linarith

theorem le_rhe_cast (x : ℚ) : x - 1/2 ≤ (roundHalfEven x : ℚ) := by
  have h2 : x < ⌊x⌋ + 1 := Int.lt_floor_add_one x
  have hf := Int.floor_add_fract x
  unfold roundHalfEven
  split_ifs <;> push_cast <;> linarith

theorem rhe_mono {x y : ℚ} (h : x ≤ y) : roundHalfEven x ≤ roundHalfEven y := by
  rcases eq_or_lt_of_le (Int.floor_mono h) with hf | hf
  · have hfx := Int.floor_add_fract x
    have hfy := Int.floor_add_fract y
    rw [hf] at hfx
    unfold roundHalfEven
    rw [hf]
    split_ifs <;> first | omega | (exfalso; linarith)
  · calc roundHalfEven x ≤ ⌊x⌋ + 1 := rhe_le_floor_add_one x
    _ ≤ ⌊y⌋ := by omega
    _ ≤ roundHalfEven y := floor_le_rhe y

theorem roundTo_mono (n : ℕ) {x y : ℚ} (h : x ≤ y) : roundTo n x ≤ roundTo n y := by
  have hp : (0:ℚ) < 10 ^ n := by positivity
  have hm : (roundHalfEven (x * 10 ^ n) : ℚ) ≤ (roundHalfEven (y * 10 ^ n) : ℚ) := by
    exact_mod_cast rhe_mono (mul_le_mul_of_nonneg_right h hp.le)
  unfold roundTo
  exact div_le_div_of_nonneg_right hm hp.le

theorem roundTo_le (n : ℕ) (x : ℚ) : roundTo n x ≤ x + 1 / (2 * 10 ^ n) := by
  have hp : (0:ℚ) < 10 ^ n := by positivity
  have h := rhe_cast_le (x * 10 ^ n)
  rw [roundTo, div_le_iff₀ hp]
  have he : (x + 1 / (2 * 10 ^ n)) * 10 ^ n = x * 10 ^ n + 1/2 := by
    field_simp
    ring
  rw [he]
  exact h

theorem le_roundTo (n : ℕ) (x : ℚ) : x - 1 / (2 * 10 ^ n) ≤ roundTo n x := by
  have hp : (0:ℚ) < 10 ^ n := by positivity
  have h := le_rhe_cast (x * 10 ^ n)
  rw [roundTo, le_div_iff₀ hp]
  have he : (x - 1 / (2 * 10 ^ n)) * 10 ^ n = x * 10 ^ n - 1/2 := by
    field_simp
    ring
  rw [he]
  exact h

theorem roundTo_zero (n : ℕ) : roundTo n 0 = 0 := by
  unfold roundTo roundHalfEven
  norm_num

theorem roundTo_nonneg (n : ℕ) {x : ℚ} (h : 0 ≤ x) : 0 ≤ roundTo n x := by
  calc (0:ℚ) = roundTo n 0 := (roundTo_zero n).symm
  _ ≤ roundTo n x := roundTo_mono n h

theorem roundTo_eq_low (n : ℕ) (x : ℚ) (f : ℤ) (h0 : (f:ℚ) ≤ x * 10 ^ n)
    (h1 : x * 10 ^ n < (f:ℚ) + 1/2) : roundTo n x = (f:ℚ) / 10 ^ n := by
  have hfl : ⌊x * 10 ^ n⌋ = f := by
    rw [Int.floor_eq_iff]
    constructor
    · exact h0
    · linarith
  have hfr : Int.fract (x * 10 ^ n) < 1/2 := by
    have := Int.floor_add_fract (x * 10 ^ n)
    rw [hfl] at this
    linarith
  rw [roundTo, roundHalfEven, if_pos hfr, hfl]

theorem roundTo_eq_high (n : ℕ) (x : ℚ) (f : ℤ) (h0 : (f:ℚ) + 1/2 < x * 10 ^ n)
    (h1 : x * 10 ^ n < (f:ℚ) + 1) : roundTo n x = ((f:ℚ) + 1) / 10 ^ n := by
  have hfl : ⌊x * 10 ^ n⌋ = f := by
    rw [Int.floor_eq_iff]
    constructor
    · linarith
    · linarith
  have hfa := Int.floor_add_fract (x * 10 ^ n)
  rw [hfl] at hfa
  have hfr : 1/2 < Int.fract (x * 10 ^ n) := by linarith
  rw [roundTo, roundHalfEven, if_neg (by linarith), if_pos hfr, hfl]
  push_cast
  ring

theorem roundTo_eq_half_even (n : ℕ) (x : ℚ) (f : ℤ) (h : x * 10 ^ n = (f:ℚ) + 1/2)
    (he : 2 ∣ f) : roundTo n x = (f:ℚ) / 10 ^ n := by
  have hfl : ⌊x * 10 ^ n⌋ = f := by
    rw [Int.floor_eq_iff]
    constructor
    · linarith
    · linarith
  have hfa := Int.floor_add_fract (x * 10 ^ n)
  rw [hfl] at hfa
  have hfr : Int.fract (x * 10 ^ n) = 1/2 := by linarith
  rw [roundTo, roundHalfEven, if_neg (by rw [hfr]; norm_num),
    if_neg (by rw [hfr]; norm_num), hfl, if_pos he]

theorem roundTo_eq_half_odd (n : ℕ) (x : ℚ) (f : ℤ) (h : x * 10 ^ n = (f:ℚ) + 1/2)
    (ho : ¬ 2 ∣ f) : roundTo n x = ((f:ℚ) + 1) / 10 ^ n := by
  have hfl : ⌊x * 10 ^ n⌋ = f := by
    rw [Int.floor_eq_iff]
    constructor
    · linarith
    · linarith
  have hfa := Int.floor_add_fract (x * 10 ^ n)
  rw [hfl] at hfa
  have hfr : Int.fract (x * 10 ^ n) = 1/2 := by linarith
  rw [roundTo, roundHalfEven, if_neg (by rw [hfr]; norm_num),
    if_neg (by rw [hfr]; norm_num), hfl, if_neg ho]
  push_cast
  ring


/-! ### General bounds on the sub-scores and the aggregate -/

theorem clamp01 (s : ℚ) : 0 ≤ max 0 (min s 100) ∧ max 0 (min s 100) ≤ 100 :=
  ⟨le_max_left _ _, max_le (by norm_num) (min_le_right _ _)⟩

theorem physical_score_bounds (d : Detection) (c : Context) :
    0 ≤ physical_score d c ∧ physical_score d c ≤ 100 := by
  simp only [physical_score]
  exact clamp01 _

theorem electrical_score_bounds (d : Detection) (c : Context) :
    0 ≤ electrical_score d c ∧ electrical_score d c ≤ 100 := by
  simp only [electrical_score]
  exact clamp01 _

theorem human_safety_score_bounds (d : Detection) (c : Context) :
    0 ≤ human_safety_score d c ∧ human_safety_score d c ≤ 100 := by
  simp only [human_safety_score]
  exact clamp01 _

theorem business_score_bounds (d : Detection) (c : Context) :
    0 ≤ business_score d c ∧ business_score d c ≤ 100 := by
  simp only [business_score]
  exact clamp01 _

theorem model_confidence_score_bounds (d : Detection) :
    0 ≤ model_confidence_score d ∧ model_confidence_score d ≤ 100 := by
  simp only [model_confidence_score]
  exact clamp01 _

theorem area_factor_ge (r : ℚ) : (0.6:ℚ) ≤ area_factor r := by
  unfold area_factor
  split_ifs <;> norm_num

theorem mul3_le_mul3 {b a f bb aa ff : ℚ} (h1 : bb ≤ b) (h2 : aa ≤ a) (h3 : ff ≤ f)
    (hbb : 0 ≤ bb) (haa : 0 ≤ aa) (hff : 0 ≤ ff) : bb * aa * ff ≤ b * a * f := by
  have h12 : bb * aa ≤ b * a := mul_le_mul h1 h2 haa (le_trans hbb h1)
  exact mul_le_mul h12 h3 hff (mul_nonneg (le_trans hbb h1) (le_trans haa h2))

/-- The physical sub-score is never below 9.6 = 20 × 0.6 × 0.8: every
substance has base at least 20, the area factor is at least 0.6 and the
floor factor at least 0.8. -/
theorem physical_score_ge (d : Detection) (c : Context) :
    (9.6:ℚ) ≤ physical_score d c := by
  simp only [physical_score]
  have h1 : (20:ℚ) ≤
      (if strLower (str_default d.substance_pred "unknown") = "water" then (20:ℚ)
       else if strLower (str_default d.substance_pred "unknown") = "oil" then 40
       else if strLower (str_default d.substance_pred "unknown") = "chemical" then 70
       else 30) := by
    split_ifs <;> norm_num
  have h2 := area_factor_ge (d.area_ratio.getD 0)
  have h3 : (0.8:ℚ) ≤
      (if strContainsSub (strLower (c.floor_type.getD "")) "absorbent" = true then (0.8:ℚ)
       else 1.1) := by
    split_ifs <;> norm_num
  refine le_max_of_le_right (le_min ?_ (by norm_num))
  calc (9.6:ℚ) = 20 * 0.6 * 0.8 := by norm_num
  _ ≤ _ := mul3_le_mul3 h1 h2 h3 (by norm_num) (by norm_num) (by norm_num)

/-- Evaluation of `round` at a 3-decimal constant. -/
theorem roundTo_3_336 : roundTo 3 (3.36:ℚ) = 3.36 := by
  rw [roundTo_eq_low 3 3.36 3360 (by norm_num) (by norm_num)]
  norm_num

/-- The raw global score is at least 3.36: the physical contribution alone
is at least `round(9.6 × 0.35, 3) = 3.36` and the others are non-negative. -/
theorem global_score_raw_ge (d : Detection) (c : Context) :
    (3.36:ℚ) ≤ global_score_raw d c := by
  simp only [global_score_raw, factors_list, List.map_cons, List.map_nil,
    List.sum_cons, List.sum_nil]
  have hp : (3.36:ℚ) ≤ roundTo 3 (physical_score d c * w_physical) := by
    calc (3.36:ℚ) = roundTo 3 3.36 := roundTo_3_336.symm
    _ ≤ _ := by
      apply roundTo_mono
      have := physical_score_ge d c
      simp only [w_physical]
      linarith
  have h2 : 0 ≤ roundTo 3 (electrical_score d c * w_electrical) :=
    roundTo_nonneg _ (mul_nonneg (electrical_score_bounds d c).1 (by norm_num [w_electrical]))
  have h3 : 0 ≤ roundTo 3 (human_safety_score d c * w_human) :=
    roundTo_nonneg _ (mul_nonneg (human_safety_score_bounds d c).1 (by norm_num [w_human]))
  have h4 : 0 ≤ roundTo 3 (business_score d c * w_business) :=
    roundTo_nonneg _ (mul_nonneg (business_score_bounds d c).1 (by norm_num [w_business]))
  have h5 : 0 ≤ roundTo 3 (model_confidence_score d * w_model_conf) :=
    roundTo_nonneg _ (mul_nonneg (model_confidence_score_bounds d).1 (by norm_num [w_model_conf]))
  linarith

/-- The raw global score is at most 100: each contribution is at most
100 × weight, by monotonicity of rounding and exactness at 3-decimal
values. -/
theorem global_score_raw_le (d : Detection) (c : Context) :
    global_score_raw d c ≤ 100 := by
  simp only [global_score_raw, factors_list, List.map_cons, List.map_nil,
    List.sum_cons, List.sum_nil]
  have h1 : roundTo 3 (physical_score d c * w_physical) ≤ 35 := by
    calc roundTo 3 (physical_score d c * w_physical) ≤ roundTo 3 35 := by
          apply roundTo_mono
          have := (physical_score_bounds d c).2
          simp only [w_physical]
          linarith
    _ = 35 := by rw [roundTo_eq_low 3 35 35000 (by norm_num) (by norm_num)]; norm_num
  have h2 : roundTo 3 (electrical_score d c * w_electrical) ≤ 20 := by
    calc roundTo 3 (electrical_score d c * w_electrical) ≤ roundTo 3 20 := by
          apply roundTo_mono
          have := (electrical_score_bounds d c).2
          simp only [w_electrical]
          linarith
    _ = 20 := by rw [roundTo_eq_low 3 20 20000 (by norm_num) (by norm_num)]; norm_num
  have h3 : roundTo 3 (human_safety_score d c * w_human) ≤ 20 := by
    calc roundTo 3 (human_safety_score d c * w_human) ≤ roundTo 3 20 := by
          apply roundTo_mono
          have := (human_safety_score_bounds d c).2
          simp only [w_human]
          linarith
    _ = 20 := by rw [roundTo_eq_low 3 20 20000 (by norm_num) (by norm_num)]; norm_num
  have h4 : roundTo 3 (business_score d c * w_business) ≤ 15 := by
    calc roundTo 3 (business_score d c * w_business) ≤ roundTo 3 15 := by
          apply roundTo_mono
          have := (business_score_bounds d c).2
          simp only [w_business]
          linarith
    _ = 15 := by rw [roundTo_eq_low 3 15 15000 (by norm_num) (by norm_num)]; norm_num
  have h5 : roundTo 3 (model_confidence_score d * w_model_conf) ≤ 10 := by
    calc roundTo 3 (model_confidence_score d * w_model_conf) ≤ roundTo 3 10 := by
          apply roundTo_mono
          have := (model_confidence_score_bounds d).2
          simp only [w_model_conf]
          linarith
    _ = 10 := by rw [roundTo_eq_low 3 10 10000 (by norm_num) (by norm_num)]; norm_num
  linarith

/-- The raw mitigated score sits at least 1.6775 below the raw global
score: the mitigation keeps at most (0.5, 0.5, 0.6, 0.7, 1.0) of each
sub-score, the physical sub-score is at least 9.6, and each of the five
3-decimal roundings loses at most 1/2000. -/
theorem mitigated_le_global_raw (d : Detection) (c : Context) :
    mitigated_score_raw d c + 1.6775 ≤ global_score_raw d c := by
  have hp := physical_score_ge d c
  have he := (electrical_score_bounds d c).1
  have hh := (human_safety_score_bounds d c).1
  have hb := (business_score_bounds d c).1
  have hm := (model_confidence_score_bounds d).1
  have r1 := le_roundTo 3 (physical_score d c * w_physical)
  have r2 := le_roundTo 3 (electrical_score d c * w_electrical)
  have r3 := le_roundTo 3 (human_safety_score d c * w_human)
  have r4 := le_roundTo 3 (business_score d c * w_business)
  have r5 := le_roundTo 3 (model_confidence_score d * w_model_conf)
  simp only [mitigated_score_raw, apply_mitigation, global_score_raw, factors_list,
    List.map_cons, List.map_nil, List.sum_cons, List.sum_nil] at *
  simp only [w_physical, w_electrical, w_human, w_business, w_model_conf] at *
  norm_num at *
  linarith

/-! ### Claim theorems -/

/-- C8: with an empty detections list, `build_risk_result` returns the fixed
degenerate record: all scores 0, level LOW, cost 0, empty factor and
recommendation lists, mitigated fields 0, and the fixed no-detection
explanation; no sub-score function is involved on this path. -/
theorem C8_empty_detections (im : String) (c : Context) :
    build_risk_result im [] c =
      { image_id := im, global_severity_score := 0, global_severity_level := "LOW",
        estimated_cost := 0, currency := "EUR", factors := [],
        explanation := "Aucune détection fournie. Score de risque nul.",
        recommendations := [], mitigated_severity_score := 0,
        mitigated_severity_level := "LOW", mitigated_cost := 0,
        risk_reduction_pct := 0 } := rfl

/-- C1 (amended): for every non-empty detections list the reported global
severity score equals the sum of the five reported contributions rounded
once more to 2 decimal places (exact equality with the plain sum can fail
when that sum carries a third decimal). -/
theorem C1_global_is_rounded_contribution_sum (im : String) (d : Detection)
    (rest : List Detection) (c : Context) :
    (build_risk_result im (d :: rest) c).global_severity_score =
      roundTo 2 (List.sum
        (((build_risk_result im (d :: rest) c).factors).map RiskFactor.contribution)) := rfl

/-- C2 (amended): for every non-empty detections list the cost/severity
proportionality holds exactly between the pre-rounding quantities,
`mitigated_cost × global = mitigated × estimated_cost`; the reported
mitigated cost is the 2-decimal rounding of the raw one; and the reported
global score is strictly positive, so the `global = 0` clause never
arises on this path. -/
theorem C2_cost_ratio_raw (im : String) (d : Detection) (rest : List Detection)
    (c : Context) :
    mitigated_cost_raw d c * global_score_raw d c =
        mitigated_score_raw d c * estimated_cost_raw d c
    ∧ (build_risk_result im (d :: rest) c).mitigated_cost =
        roundTo 2 (mitigated_cost_raw d c)
    ∧ 0 < (build_risk_result im (d :: rest) c).global_severity_score := by
  have hg := global_score_raw_ge d c
  refine ⟨?_, rfl, ?_⟩
  · have hne : global_score_raw d c ≠ 0 := by linarith
    simp only [mitigated_cost_raw]
    rw [if_pos (by linarith : 0 < global_score_raw d c)]
    field_simp
    ring
  · have := le_roundTo 2 (global_score_raw d c)
    simp only [build_risk_result]
    norm_num at this ⊢
    linarith

/-- C3: the severity classification is total and deterministic with
breakpoints 25/50/75 (LOW below 25, MEDIUM in [25,50), HIGH in [50,75),
CRITICAL at and above 75), and `build_risk_result` applies the same
function `severity_level` to the pre-mitigation and post-mitigation
scores. -/
theorem C3_severity_level (im : String) (d : Detection) (rest : List Detection)
    (c : Context) :
    (build_risk_result im (d :: rest) c).global_severity_level =
        severity_level (global_score_raw d c)
    ∧ (build_risk_result im (d :: rest) c).mitigated_severity_level =
        severity_level (mitigated_score_raw d c)
    ∧ ∀ s : ℚ, (severity_level s = "LOW" ↔ s < 25)
        ∧ (severity_level s = "MEDIUM" ↔ 25 ≤ s ∧ s < 50)
        ∧ (severity_level s = "HIGH" ↔ 50 ≤ s ∧ s < 75)
        ∧ (severity_level s = "CRITICAL" ↔ 75 ≤ s) := by
  refine ⟨rfl, rfl, fun s => ?_⟩
  unfold severity_level
  split_ifs with h1 h2 h3
  · refine ⟨iff_of_true rfl h1, iff_of_false (by decide) ?_, iff_of_false (by decide) ?_,
      iff_of_false (by decide) ?_⟩
    · rintro ⟨a, -⟩
      linarith
    · rintro ⟨a, -⟩
      linarith
    · intro a
      linarith
  · refine ⟨iff_of_false (by decide) h1, iff_of_true rfl ⟨by linarith, h2⟩,
      iff_of_false (by decide) ?_, iff_of_false (by decide) ?_⟩
    · rintro ⟨a, -⟩
      linarith
    · intro a
      linarith
  · refine ⟨iff_of_false (by decide) h1, iff_of_false (by decide) ?_,
      iff_of_true rfl ⟨by linarith, h3⟩, iff_of_false (by decide) ?_⟩
    · rintro ⟨-, b⟩
      exact h2 b
    · intro a
      linarith
  · refine ⟨iff_of_false (by decide) h1, iff_of_false (by decide) ?_,
      iff_of_false (by decide) ?_, iff_of_true rfl (by linarith)⟩
    · rintro ⟨-, b⟩
      exact h2 b
    · rintro ⟨-, b⟩
      exact h3 b

/-- C5: the electrical sub-score equals the spec's base table (flat case
analysis over zone, proximity and substance) times the area factor,
clamped to [0, 100]. -/
theorem C5_electrical_score (d : Detection) (c : Context) :
    electrical_score d c =
      max 0 (min (electrical_base_spec (strLower (str_default d.substance_pred "unknown"))
        (strLower (c.zone_type.getD "")) (strLower (c.proximity_to_machines.getD ""))
        * area_factor (d.area_ratio.getD 0)) 100)
    ∧ 0 ≤ electrical_score d c ∧ electrical_score d c ≤ 100 := by
  refine ⟨?_, electrical_score_bounds d c⟩
  simp only [electrical_score, electrical_base_spec]
  split_ifs <;> first | rfl | tauto

/-- C6 (amended): the factor weights are the fixed constants 0.35, 0.20,
0.20, 0.15, 0.10 summing to 1; each reported contribution is
`round(sub-score × weight, 3)` computed from the *raw* sub-score, while
the reported value is the raw sub-score rounded to 2 decimals. -/
theorem C6_contributions (im : String) (d : Detection) (rest : List Detection)
    (c : Context) :
    ((build_risk_result im (d :: rest) c).factors).map RiskFactor.weight =
        [w_physical, w_electrical, w_human, w_business, w_model_conf]
    ∧ w_physical + w_electrical + w_human + w_business + w_model_conf = 1
    ∧ ((build_risk_result im (d :: rest) c).factors).map RiskFactor.contribution =
        [roundTo 3 (physical_score d c * w_physical),
         roundTo 3 (electrical_score d c * w_electrical),
         roundTo 3 (human_safety_score d c * w_human),
         roundTo 3 (business_score d c * w_business),
         roundTo 3 (model_confidence_score d * w_model_conf)]
    ∧ ((build_risk_result im (d :: rest) c).factors).map RiskFactor.value =
        [roundTo 2 (physical_score d c), roundTo 2 (electrical_score d c),
         roundTo 2 (human_safety_score d c), roundTo 2 (business_score d c),
         roundTo 2 (model_confidence_score d)] := by
  refine ⟨rfl, by norm_num [w_physical, w_electrical, w_human, w_business, w_model_conf],
    rfl, rfl⟩

/-- C7: for every detection and context (including out-of-range confidence,
area ratio or negative production value) the five sub-scores and both the
raw and the reported global severity score lie in [0, 100]. -/
theorem C7_scores_in_range (im : String) (d : Detection) (rest : List Detection)
    (c : Context) :
    (0 ≤ physical_score d c ∧ physical_score d c ≤ 100)
    ∧ (0 ≤ electrical_score d c ∧ electrical_score d c ≤ 100)
    ∧ (0 ≤ human_safety_score d c ∧ human_safety_score d c ≤ 100)
    ∧ (0 ≤ business_score d c ∧ business_score d c ≤ 100)
    ∧ (0 ≤ model_confidence_score d ∧ model_confidence_score d ≤ 100)
    ∧ (0 ≤ global_score_raw d c ∧ global_score_raw d c ≤ 100)
    ∧ 0 ≤ (build_risk_result im (d :: rest) c).global_severity_score
    ∧ (build_risk_result im (d :: rest) c).global_severity_score ≤ 100 := by
  have hg0 : 0 ≤ global_score_raw d c := le_trans (by norm_num) (global_score_raw_ge d c)
  have hg1 := global_score_raw_le d c
  refine ⟨physical_score_bounds d c, electrical_score_bounds d c,
    human_safety_score_bounds d c, business_score_bounds d c,
    model_confidence_score_bounds d, ⟨hg0, hg1⟩, ?_, ?_⟩
  · simp only [build_risk_result]
    exact roundTo_nonneg 2 hg0
  · simp only [build_risk_result]
    calc roundTo 2 (global_score_raw d c) ≤ roundTo 2 100 := roundTo_mono 2 hg1
    _ = 100 := by rw [roundTo_eq_low 2 100 10000 (by norm_num) (by norm_num)]; norm_num

/-- C9 (amended): the recommendation list is built in the fixed order the
spec gives — generic isolation, substance-specific handling (none for
unrecognized substances), power cutoff exactly for electrical rooms — and
ends, for HIGH or CRITICAL levels, with the escalation instruction
followed by a document-and-analyse instruction, otherwise with the
logging-only documentation instruction. -/
theorem C9_recommendations (im : String) (d : Detection) (rest : List Detection)
    (c : Context) :
    (build_risk_result im (d :: rest) c).recommendations =
      recommendations_spec ((build_risk_result im (d :: rest) c).global_severity_level)
        (strLower (str_default d.substance_pred "unknown"))
        (strLower (c.zone_type.getD "")) := rfl

/-- C10: for every non-empty detections input the reported mitigated score
never exceeds the reported global score, the reported risk reduction
percentage is non-negative, and the reported mitigated cost never exceeds
the reported estimated cost. -/
theorem C10_mitigation_decreases (im : String) (d : Detection) (rest : List Detection)
    (c : Context) :
    (build_risk_result im (d :: rest) c).mitigated_severity_score ≤
        (build_risk_result im (d :: rest) c).global_severity_score
    ∧ 0 ≤ (build_risk_result im (d :: rest) c).risk_reduction_pct
    ∧ (build_risk_result im (d :: rest) c).mitigated_cost ≤
        (build_risk_result im (d :: rest) c).estimated_cost := by
  have hgap := mitigated_le_global_raw d c
  have hg := global_score_raw_ge d c
  have hm_le : mitigated_score_raw d c ≤ global_score_raw d c := by linarith
  have hgpos : 0 < global_score_raw d c := by linarith
  refine ⟨?_, ?_, ?_⟩
  · simp only [build_risk_result]
    exact roundTo_mono 2 hm_le
  · simp only [build_risk_result]
    apply roundTo_nonneg
    simp only [risk_reduction_pct_raw]
    rw [if_pos hgpos]
    exact mul_nonneg (div_nonneg (by linarith) (by linarith)) (by norm_num)
  · simp only [build_risk_result]
    apply roundTo_mono
    simp only [mitigated_cost_raw]
    rw [if_pos hgpos]
    have hec0 : 0 ≤ estimated_cost_raw d c := by
      simp only [estimated_cost_raw, estimate_cost]
      exact le_max_left _ _
    have hratio : mitigated_score_raw d c / global_score_raw d c ≤ 1 := by
      rw [div_le_one hgpos]
      exact hm_le
    calc estimated_cost_raw d c * (mitigated_score_raw d c / global_score_raw d c)
        ≤ estimated_cost_raw d c * 1 := mul_le_mul_of_nonneg_left hratio hec0
    _ = estimated_cost_raw d c := mul_one _

/-- C1 (counterexample): at `cexC1det`/`cexC1ctx` the reported
contributions are [3.36, 0, 1.68, 0, 0.001], summing to 5.041, while the
reported global severity score is `round(5.041, 2) = 5.04`: the claimed
identity against the reported contributions fails. -/
theorem C1_counterexample :
    List.sum (((build_risk_result "img" [cexC1det] cexC1ctx).factors).map
        RiskFactor.contribution) ≠
      (build_risk_result "img" [cexC1det] cexC1ctx).global_severity_score := by
  have hp : physical_score cexC1det cexC1ctx = 9.6 := by
    simp +decide only [physical_score, cexC1det, cexC1ctx, Option.getD]
    norm_num [area_factor, min_def, max_def]
  have he : electrical_score cexC1det cexC1ctx = 0 := by
    simp +decide only [electrical_score, cexC1det, cexC1ctx, Option.getD]
    norm_num [area_factor, min_def, max_def]
  have hh : human_safety_score cexC1det cexC1ctx = 8.4 := by
    simp +decide only [human_safety_score, cexC1det, cexC1ctx, Option.getD]
    norm_num [area_factor, min_def, max_def]
  have hb : business_score cexC1det cexC1ctx = 0 := by
    simp +decide only [business_score, cexC1det, cexC1ctx, Option.getD]
    norm_num [area_factor, min_def, max_def]
  have hm : model_confidence_score cexC1det = 0.01 := by
    simp +decide only [model_confidence_score, cexC1det]
    norm_num [min_def, max_def]
  have c1 : roundTo 3 (physical_score cexC1det cexC1ctx * w_physical) = 3.36 := by
    rw [hp, show (9.6:ℚ) * w_physical = 3.36 by norm_num [w_physical]]
    exact roundTo_3_336
  have c2 : roundTo 3 (electrical_score cexC1det cexC1ctx * w_electrical) = 0 := by
    rw [he, zero_mul, roundTo_zero]
  have c3 : roundTo 3 (human_safety_score cexC1det cexC1ctx * w_human) = 1.68 := by
    rw [hh, show (8.4:ℚ) * w_human = 1.68 by norm_num [w_human],
      roundTo_eq_low 3 1.68 1680 (by norm_num) (by norm_num)]
    norm_num
  have c4 : roundTo 3 (business_score cexC1det cexC1ctx * w_business) = 0 := by
    rw [hb, zero_mul, roundTo_zero]
  have c5 : roundTo 3 (model_confidence_score cexC1det * w_model_conf) = 0.001 := by
    rw [hm, show (0.01:ℚ) * w_model_conf = 0.001 by norm_num [w_model_conf],
      roundTo_eq_low 3 0.001 1 (by norm_num) (by norm_num)]
    norm_num
  have hg : global_score_raw cexC1det cexC1ctx = 5.041 := by
    simp only [global_score_raw, factors_list, List.map_cons, List.map_nil,
      List.sum_cons, List.sum_nil]
    rw [c1, c2, c3, c4, c5]
    norm_num
  show List.sum ((factors_list cexC1det cexC1ctx).map RiskFactor.contribution) ≠
    roundTo 2 (global_score_raw cexC1det cexC1ctx)
  rw [show List.sum ((factors_list cexC1det cexC1ctx).map RiskFactor.contribution) =
    global_score_raw cexC1det cexC1ctx from rfl]
  rw [hg, roundTo_eq_low 2 5.041 504 (by norm_num) (by norm_num)]
  norm_num

/-! Evaluation of the demo scenario (`exDet`, `exCtx`), shared by the C2
counterexample and the C4 analysis. -/

theorem exDet_physical : physical_score exDet exCtx = 32 := by
  simp +decide only [physical_score, exDet, exCtx, Option.getD]
  norm_num [area_factor, min_def, max_def]

theorem exDet_electrical : electrical_score exDet exCtx = 40 := by
  simp +decide only [electrical_score, exDet, exCtx, Option.getD]
  norm_num [area_factor, min_def, max_def]

theorem exDet_human : human_safety_score exDet exCtx = 40 := by
  simp +decide only [human_safety_score, exDet, exCtx, Option.getD]
  norm_num [area_factor, min_def, max_def]

theorem exDet_business : business_score exDet exCtx = 16 := by
  simp +decide only [business_score, exDet, exCtx, Option.getD]
  norm_num [area_factor, min_def, max_def]

theorem exDet_model : model_confidence_score exDet = 93 := by
  simp +decide only [model_confidence_score, exDet]
  norm_num [min_def, max_def]

theorem exDet_global : global_score_raw exDet exCtx = 38.9 := by
  simp only [global_score_raw, factors_list, List.map_cons, List.map_nil,
    List.sum_cons, List.sum_nil]
  rw [exDet_physical, exDet_electrical, exDet_human, exDet_business, exDet_model]
  rw [show (32:ℚ) * w_physical = 11.2 by norm_num [w_physical],
    show (40:ℚ) * w_electrical = 8 by norm_num [w_electrical],
    show (40:ℚ) * w_human = 8 by norm_num [w_human],
    show (16:ℚ) * w_business = 2.4 by norm_num [w_business],
    show (93:ℚ) * w_model_conf = 9.3 by norm_num [w_model_conf]]
  rw [roundTo_eq_low 3 11.2 11200 (by norm_num) (by norm_num),
    roundTo_eq_low 3 8 8000 (by norm_num) (by norm_num),
    roundTo_eq_low 3 2.4 2400 (by norm_num) (by norm_num),
    roundTo_eq_low 3 9.3 9300 (by norm_num) (by norm_num)]
  norm_num

theorem exDet_mitigated : mitigated_score_raw exDet exCtx = 25.38 := by
  simp only [mitigated_score_raw, apply_mitigation, List.sum_cons, List.sum_nil]
  rw [exDet_physical, exDet_electrical, exDet_human, exDet_business, exDet_model]
  norm_num [w_physical, w_electrical, w_human, w_business, w_model_conf]

theorem exDet_cost : estimated_cost_raw exDet exCtx = 8534.4 := by
  simp only [estimated_cost_raw]
  rw [exDet_global]
  simp +decide only [estimate_cost, exDet, exCtx, Option.getD]
  norm_num [min_def, max_def]

/-- C2 (counterexample): on the demo scenario the *reported* (rounded)
fields give `5568.2 / 8534.4 ≠ 25.38 / 38.9`: the exact proportionality
only holds before the final 2-decimal rounding of the mitigated cost. -/
theorem C2_counterexample :
    0 < (build_risk_result "img_001" [exDet] exCtx).global_severity_score
    ∧ (build_risk_result "img_001" [exDet] exCtx).mitigated_cost /
          (build_risk_result "img_001" [exDet] exCtx).estimated_cost ≠
        (build_risk_result "img_001" [exDet] exCtx).mitigated_severity_score /
          (build_risk_result "img_001" [exDet] exCtx).global_severity_score := by
  have hG : (build_risk_result "img_001" [exDet] exCtx).global_severity_score = 38.9 := by
    show roundTo 2 (global_score_raw exDet exCtx) = 38.9
    rw [exDet_global, roundTo_eq_low 2 38.9 3890 (by norm_num) (by norm_num)]
    norm_num
  have hM : (build_risk_result "img_001" [exDet] exCtx).mitigated_severity_score = 25.38 := by
    show roundTo 2 (mitigated_score_raw exDet exCtx) = 25.38
    rw [exDet_mitigated, roundTo_eq_low 2 25.38 2538 (by norm_num) (by norm_num)]
    norm_num
  have hE : (build_risk_result "img_001" [exDet] exCtx).estimated_cost = 8534.4 := by
    show roundTo 2 (estimated_cost_raw exDet exCtx) = 8534.4
    rw [exDet_cost, roundTo_eq_low 2 8534.4 853440 (by norm_num) (by norm_num)]
    norm_num
  have hmc : mitigated_cost_raw exDet exCtx = 8534.4 * (25.38 / 38.9) := by
    simp only [mitigated_cost_raw]
    rw [exDet_global, exDet_mitigated, exDet_cost,
      if_pos (by norm_num : (0:ℚ) < 38.9)]
  have hC : (build_risk_result "img_001" [exDet] exCtx).mitigated_cost = 5568.2 := by
    show roundTo 2 (mitigated_cost_raw exDet exCtx) = 5568.2
    rw [hmc, roundTo_eq_low 2 (8534.4 * (25.38 / 38.9)) 556820 (by norm_num) (by norm_num)]
    norm_num
  rw [hG, hM, hE, hC]
  norm_num

/-- C4: on the spec's worked example (oil, confidence 0.93, area 0.30,
production zone, near machines, floor "non_absorbent", 8000 EUR/h) the
code reports sub-score values [32, 40, 40, 16, 93] and global score 38.9
(level MEDIUM), not the claimed physical 44 and global 43.1: the
substring test `"absorbent" in floor_type` classifies "non_absorbent" as
absorbent (factor 0.8), contradicting the engine's own docstring. -/
theorem C4_example_behavior :
    ((build_risk_result "img_001" [exDet] exCtx).factors).map RiskFactor.value =
        [32, 40, 40, 16, 93]
    ∧ (build_risk_result "img_001" [exDet] exCtx).global_severity_score = 38.9
    ∧ (build_risk_result "img_001" [exDet] exCtx).global_severity_level = "MEDIUM"
    ∧ (build_risk_result "img_001" [exDet] exCtx).global_severity_score ≠ 43.1 := by
  have hG : (build_risk_result "img_001" [exDet] exCtx).global_severity_score = 38.9 := by
    show roundTo 2 (global_score_raw exDet exCtx) = 38.9
    rw [exDet_global, roundTo_eq_low 2 38.9 3890 (by norm_num) (by norm_num)]
    norm_num
  refine ⟨?_, hG, ?_, by rw [hG]; norm_num⟩
  · show (factors_list exDet exCtx).map RiskFactor.value = [32, 40, 40, 16, 93]
    simp only [factors_list, List.map_cons, List.map_nil]
    rw [exDet_physical, exDet_electrical, exDet_human, exDet_business, exDet_model]
    rw [roundTo_eq_low 2 32 3200 (by norm_num) (by norm_num),
      roundTo_eq_low 2 40 4000 (by norm_num) (by norm_num),
      roundTo_eq_low 2 16 1600 (by norm_num) (by norm_num),
      roundTo_eq_low 2 93 9300 (by norm_num) (by norm_num)]
    norm_num
  · show severity_level (global_score_raw exDet exCtx) = "MEDIUM"
    rw [exDet_global]
    norm_num [severity_level]

/-- C6 (counterexample): at `cexC6det`/`cexC6ctx` the business sub-score is
3.236, reported as value 3.24; the reported contribution is
`round(3.236 × 0.15, 3) = 0.485`, but recomputing from the reported value
gives `round(3.24 × 0.15, 3) = 0.486`: contributions are computed from
the raw sub-scores, not from the reported values. -/
theorem C6_counterexample :
    ((build_risk_result "img" [cexC6det] cexC6ctx).factors).map RiskFactor.contribution ≠
      ((build_risk_result "img" [cexC6det] cexC6ctx).factors).map
        (fun f => roundTo 3 (f.value * f.weight)) := by
  have hp : physical_score cexC6det cexC6ctx = 16 := by
    simp +decide only [physical_score, cexC6det, cexC6ctx, Option.getD]
    norm_num [area_factor, min_def, max_def]
  have he : electrical_score cexC6det cexC6ctx = 0 := by
    simp +decide only [electrical_score, cexC6det, cexC6ctx, Option.getD]
    norm_num [area_factor, min_def, max_def]
  have hh : human_safety_score cexC6det cexC6ctx = 14 := by
    simp +decide only [human_safety_score, cexC6det, cexC6ctx, Option.getD]
    norm_num [area_factor, min_def, max_def]
  have hbz : business_score cexC6det cexC6ctx = 3.236 := by
    simp +decide only [business_score, cexC6det, cexC6ctx, Option.getD]
    norm_num [area_factor, min_def, max_def]
  have hm : model_confidence_score cexC6det = 50 := by
    simp +decide only [model_confidence_score, cexC6det]
    norm_num [min_def, max_def]
  have hL : (factors_list cexC6det cexC6ctx).map RiskFactor.contribution =
      [5.6, 0, 2.8, 0.485, 5] := by
    simp only [factors_list, List.map_cons, List.map_nil]
    rw [hp, he, hh, hbz, hm]
    rw [show (16:ℚ) * w_physical = 5.6 by norm_num [w_physical],
      show (0:ℚ) * w_electrical = 0 by norm_num,
      show (14:ℚ) * w_human = 2.8 by norm_num [w_human],
      show (3.236:ℚ) * w_business = 0.4854 by norm_num [w_business],
      show (50:ℚ) * w_model_conf = 5 by norm_num [w_model_conf]]
    rw [roundTo_eq_low 3 5.6 5600 (by norm_num) (by norm_num), roundTo_zero,
      roundTo_eq_low 3 2.8 2800 (by norm_num) (by norm_num),
      roundTo_eq_low 3 0.4854 485 (by norm_num) (by norm_num),
      roundTo_eq_low 3 5 5000 (by norm_num) (by norm_num)]
    norm_num
  have hR : (factors_list cexC6det cexC6ctx).map (fun f => roundTo 3 (f.value * f.weight)) =
      [5.6, 0, 2.8, 0.486, 5] := by
    have v1 : roundTo 2 (16:ℚ) = 16 := by
      rw [roundTo_eq_low 2 16 1600 (by norm_num) (by norm_num)]
      norm_num
    have v3 : roundTo 2 (14:ℚ) = 14 := by
      rw [roundTo_eq_low 2 14 1400 (by norm_num) (by norm_num)]
      norm_num
    have v4 : roundTo 2 (3.236:ℚ) = 3.24 := by
      rw [roundTo_eq_high 2 3.236 323 (by norm_num) (by norm_num)]
      norm_num
    have v5 : roundTo 2 (50:ℚ) = 50 := by
      rw [roundTo_eq_low 2 50 5000 (by norm_num) (by norm_num)]
      norm_num
    simp only [factors_list, List.map_cons, List.map_nil]
    rw [hp, he, hh, hbz, hm, v1, roundTo_zero, v3, v4, v5]
    rw [show (16:ℚ) * w_physical = 5.6 by norm_num [w_physical],
      show (0:ℚ) * w_electrical = 0 by norm_num,
      show (14:ℚ) * w_human = 2.8 by norm_num [w_human],
      show (3.24:ℚ) * w_business = 0.486 by norm_num [w_business],
      show (50:ℚ) * w_model_conf = 5 by norm_num [w_model_conf]]
    rw [roundTo_eq_low 3 5.6 5600 (by norm_num) (by norm_num), roundTo_zero,
      roundTo_eq_low 3 2.8 2800 (by norm_num) (by norm_num),
      roundTo_eq_low 3 0.486 486 (by norm_num) (by norm_num),
      roundTo_eq_low 3 5 5000 (by norm_num) (by norm_num)]
    norm_num
  simp only [build_risk_result]
  rw [hL, hR]
  simp only [ne_eq, List.cons.injEq]
  norm_num

/-- C9 (counterexample): at `cexC9det`/`cexC9ctx` the level is CRITICAL and
the recommendation list has five entries; its last entry is the
document-and-analyse instruction, not the escalation instruction, so the
escalation instruction is not the final one as the claim states. -/
theorem C9_counterexample :
    (build_risk_result "img" [cexC9det] cexC9ctx).global_severity_level = "CRITICAL"
    ∧ (build_risk_result "img" [cexC9det] cexC9ctx).recommendations =
        ["Isoler la zone et baliser l'accès (cones, rubalise).",
         "Déclencher la procédure de déversement chimique (EPI, SDS, ventilation).",
         "Couper l'alimentation électrique de la zone si possible et sécurisé.",
         "Informer immédiatement le responsable HSE / sécurité du site.",
         "Documenter l'incident dans le registre HSE et analyser les causes racines."]
    ∧ (build_risk_result "img" [cexC9det] cexC9ctx).recommendations ≠
        ["Isoler la zone et baliser l'accès (cones, rubalise).",
         "Déclencher la procédure de déversement chimique (EPI, SDS, ventilation).",
         "Couper l'alimentation électrique de la zone si possible et sécurisé.",
         "Informer immédiatement le responsable HSE / sécurité du site."] := by
  have hp : physical_score cexC9det cexC9ctx = 100 := by
    simp +decide only [physical_score, cexC9det, cexC9ctx, Option.getD]
    norm_num [area_factor, min_def, max_def]
  have he : electrical_score cexC9det cexC9ctx = 100 := by
    simp +decide only [electrical_score, cexC9det, cexC9ctx, Option.getD]
    norm_num [area_factor, min_def, max_def]
  have hh : human_safety_score cexC9det cexC9ctx = 100 := by
    simp +decide only [human_safety_score, cexC9det, cexC9ctx, Option.getD]
    norm_num [area_factor, min_def, max_def]
  have hb : business_score cexC9det cexC9ctx = 0 := by
    simp +decide only [business_score, cexC9det, cexC9ctx, Option.getD]
    norm_num [area_factor, min_def, max_def]
  have hm : model_confidence_score cexC9det = 90 := by
    simp +decide only [model_confidence_score, cexC9det]
    norm_num [min_def, max_def]
  have hg : global_score_raw cexC9det cexC9ctx = 84 := by
    simp only [global_score_raw, factors_list, List.map_cons, List.map_nil,
      List.sum_cons, List.sum_nil]
    rw [hp, he, hh, hb, hm]
    rw [show (100:ℚ) * w_physical = 35 by norm_num [w_physical],
      show (100:ℚ) * w_electrical = 20 by norm_num [w_electrical],
      show (100:ℚ) * w_human = 20 by norm_num [w_human],
      show (0:ℚ) * w_business = 0 by norm_num,
      show (90:ℚ) * w_model_conf = 9 by norm_num [w_model_conf]]
    rw [roundTo_eq_low 3 35 35000 (by norm_num) (by norm_num),
      roundTo_eq_low 3 20 20000 (by norm_num) (by norm_num), roundTo_zero,
      roundTo_eq_low 3 9 9000 (by norm_num) (by norm_num)]
    norm_num
  have hlev : severity_level (global_score_raw cexC9det cexC9ctx) = "CRITICAL" := by
    rw [hg]
    norm_num [severity_level]
  have hrecs : (build_risk_result "img" [cexC9det] cexC9ctx).recommendations =
      ["Isoler la zone et baliser l'accès (cones, rubalise).",
       "Déclencher la procédure de déversement chimique (EPI, SDS, ventilation).",
       "Couper l'alimentation électrique de la zone si possible et sécurisé.",
       "Informer immédiatement le responsable HSE / sécurité du site.",
       "Documenter l'incident dans le registre HSE et analyser les causes racines."] := by
    show build_recommendations (severity_level (global_score_raw cexC9det cexC9ctx))
      cexC9det cexC9ctx = _
    rw [hlev]
    simp +decide only [build_recommendations, cexC9det, cexC9ctx, Option.getD,
      List.cons_append, List.nil_append, List.append_nil]
  refine ⟨hlev, hrecs, ?_⟩
  rw [hrecs]
  decide
